/-
Verification of the foundry-sandbox-mcp orchestration engine.

This file is a shallow embedding, in Lean 4, of the core data model and
operations of the repository:

  * `DockerManager` (src/docker-manager.ts): container lifecycle
    (`createAndStartContainer`, `removeContainer`), image provisioning
    (`ensureImageExists`, `findMcpProjectPath`, `buildImageWithCompose`),
    command execution (`execCommand`, `_captureStreamOutput`), and the
    dependency installer (`installDependenciesFromManifest` and its
    per-ecosystem helpers).
  * `ForgeTool` (src/tools/forge-tool.ts): manifest normalization
    (`normalizeDependencies`, `readDependenciesManifest`) and the workflow
    driver (`runTest`), including the PASS/FAIL verdict and failure-reason
    extraction.

External effects (the Docker engine control plane, the filesystem, spawned
subprocesses, output streams) are modelled by explicit environment records
supplying each call's outcome; the TypeScript control flow (try/catch,
early returns, loops, the mutation of `this.containerId`) is translated
into explicit state passing.  Wall-clock timestamps and durations that the
code interpolates into log lines are abstracted away (log entries are kept
without their timestamp prefix); everything else follows the source.
-/
import Mathlib

namespace FoundrySandbox

/-! ## Basic string machinery

JavaScript `String.prototype.includes`, regex scanning and `[^\n]*` are
modelled on `List Char`. -/

/-- `needle` occurs as a contiguous substring of `hay`
(model of JavaScript `hay.includes(needle)`). -/
def containsSub (hay needle : List Char) : Bool :=
  needle.isPrefixOf hay ||
    match hay with
    | [] => false
    | _ :: t => containsSub t needle

/-- `hay.includes(needle)` on Lean strings. -/
def strIncludes (hay needle : String) : Bool :=
  containsSub hay.toList needle.toList

/-- The rest of the current line: the longest prefix without a newline
(model of the regex tail `[^\n]*` applied greedily). -/
def takeLine (cs : List Char) : List Char :=
  cs.takeWhile (fun c => c ≠ '\n')

/-! ## Engine errors and exec results -/

/-- An error surfaced by the dockerode engine client: a message plus an
optional HTTP status code.  The code branches on
`error.message.includes(...)` and on `(error as any).statusCode === 404`. -/
structure DockerError where
  message : String
  statusCode : Option Nat
  deriving Repr, DecidableEq

/-- `removeContainer` treats an error as "container already gone" when its
message contains "No such container" or its status code is 404
(src/docker-manager.ts, catch-branch of `removeContainer`). -/
def DockerError.isContainerGone (e : DockerError) : Bool :=
  strIncludes e.message "No such container" || e.statusCode == some 404

/-- `ensureImageExists` treats an error as "image missing" when its message
contains "No such image" or its status code is 404. -/
def DockerError.isImageMissing (e : DockerError) : Bool :=
  strIncludes e.message "No such image" || e.statusCode == some 404

/-- The value `execCommand` / `_captureStreamOutput` resolves with:
captured stdout, captured stderr, and the exit code read from
`exec.inspect()` (−1 when the inspect response carries no exit code). -/
structure ExecutionResult where
  stdout : String
  stderr : String
  exitCode : Int
  deriving Repr, DecidableEq

/-- How the hijacked output stream of one exec call terminates:
it either ends normally, emits an error event, or the watchdog timer
fires first. -/
inductive StreamEvt where
  | ended
  | errored (msg : String)
  | timedOut
  deriving Repr, DecidableEq

/-- The observable ingredients of one exec call: how its stream terminated,
what `exec.inspect()` would return afterwards (an error, or a response
whose `ExitCode` field may be null), and the demultiplexed output. -/
structure ExecEvt where
  evt : StreamEvt
  inspectExec : Except String (Option Int)
  stdout : String
  stderr : String
  deriving Repr

/-- The tail of `execCommand` and `_captureStreamOutput`
(src/docker-manager.ts): the promise settles according to how the stream
terminated.  On timeout it rejects with the timeout message; on a stream
error it rejects with "Stream error: ..."; on normal end it calls
`exec.inspect()` — a failing inspect call rejects with
"Failed to inspect exec: ...", a successful one resolves with
`inspect.ExitCode ?? -1`. -/
def execFinish (timeout : Nat) (e : ExecEvt) : Except String ExecutionResult :=
  match e.evt with
  | .timedOut =>
      .error ("Command execution timeout after " ++ toString timeout ++ "ms")
  | .errored m => .error ("Stream error: " ++ m)
  | .ended =>
      match e.inspectExec with
      | .error m => .error ("Failed to inspect exec: " ++ m)
      | .ok code? => .ok ⟨e.stdout, e.stderr, code?.getD (-1)⟩

/-- The `ExecutionResult` a settled exec call delivered, if it resolved
(rather than rejected). -/
def execResult? (r : Except String ExecutionResult) : Option ExecutionResult :=
  match r with
  | .ok v => some v
  | .error _ => none

/-! ## `removeContainer` -/

/-- Outcomes of the engine calls `removeContainer` may issue:
`container.inspect()` (returning the `State.Running` flag),
`container.stop({t: 10})` and `container.remove({force: true})`. -/
structure RemoveEnv where
  inspect : Except DockerError Bool
  stop : Except DockerError Unit
  remove : Except DockerError Unit
  deriving Repr

/-- The observable outcome of one `removeContainer` call: the value of the
`containerId` field afterwards, whether the call threw, which log entries
it appended, whether it logged the gone-container notice or the failure
warning, and whether the engine-side removal actually happened. -/
structure RemoveOutcome where
  containerId : Option String
  raised : Option String
  log : List String
  treatedGone : Bool
  warned : Bool
  engineRemoved : Bool
  deriving Repr

/-- The catch-branch of `removeContainer`: a gone-container error (404 or
"No such container") is logged as "already removed"; any other error is
logged as a warning; in both branches `containerId` is set to null and
nothing is rethrown. -/
def removeCatch (cid : String) (e : DockerError) : RemoveOutcome :=
  if e.isContainerGone then
    { containerId := none
      raised := none
      log := ["Container already removed (ID: " ++ cid.take 12 ++ ")"]
      treatedGone := true
      warned := false
      engineRemoved := false }
  else
    { containerId := none
      raised := none
      log := ["Warning: Failed to remove container: " ++ e.message]
      treatedGone := false
      warned := true
      engineRemoved := false }

/-- `DockerManager.removeContainer` (src/docker-manager.ts): no-op when no
container handle is set; otherwise inspect, stop if running, force-remove;
every error lands in the catch-branch. -/
def removeContainer (cid : Option String) (env : RemoveEnv) : RemoveOutcome :=
  match cid with
  | none =>
      { containerId := none, raised := none, log := []
        treatedGone := false, warned := false, engineRemoved := false }
  | some id =>
      match env.inspect with
      | .error e => removeCatch id e
      | .ok running =>
          match (if running then env.stop else .ok ()) with
          | .error e => removeCatch id e
          | .ok () =>
              match env.remove with
              | .error e => removeCatch id e
              | .ok () =>
                  { containerId := none
                    raised := none
                    log := ["Container removed (ID: " ++ id.take 12 ++ ")"]
                    treatedGone := false
                    warned := false
                    engineRemoved := true }

/-! ## Manifest normalization (`ForgeTool.normalizeDependencies`) -/

/-- A runtime JSON value as far as the normalizer's type tests can see it:
a string, or something else. -/
inductive JsonVal where
  | str (s : String)
  | other
  deriving Repr, DecidableEq

/-- One manifest section as received from `JSON.parse`: absent
(`undefined`), an array, or an object (an ordered list of entries, as
`Object.entries` would enumerate them). -/
inductive DepsInput where
  | undef
  | array (xs : List JsonVal)
  | object (entries : List (String × JsonVal))
  deriving Repr, DecidableEq

/-- Helper for the array branch: every element must be a string. -/
def allStrings (xs : List JsonVal) : Bool :=
  xs.all (fun x => match x with | .str _ => true | .other => false)

/-- Helper for the array branch: extract the strings. -/
def theStrings (xs : List JsonVal) : List String :=
  xs.filterMap (fun x => match x with | .str s => some s | .other => none)

/-- Helper for the object branch: convert each entry `(name, version)` to
the token `name@version`; a non-string value is an error. -/
def objectTokens (fieldName : String) :
    List (String × JsonVal) → Except String (List String)
  | [] => .ok []
  | (packageName, v) :: rest =>
      match v with
      | .str version =>
          match objectTokens fieldName rest with
          | .ok tokens => .ok ((packageName ++ "@" ++ version) :: tokens)
          | .error e => .error e
      | .other =>
          .error ("'" ++ fieldName ++
            "' field must be an object with string keys and string values")

/-- `ForgeTool.normalizeDependencies` (src/tools/forge-tool.ts):
`undefined` becomes `[]`; an array of strings is returned unchanged; an
object becomes the list of `name@version` tokens; anything else is a
thrown `Error` (modelled as `Except.error`). -/
def normalizeDependencies (deps : DepsInput) (fieldName : String) :
    Except String (List String) :=
  match deps with
  | .undef => .ok []
  | .array xs =>
      if allStrings xs then .ok (theStrings xs)
      else .error ("'" ++ fieldName ++ "' field must be an array of strings")
  | .object entries => objectTokens fieldName entries

/-! ## Reading the dependency manifest (`ForgeTool.readDependenciesManifest`) -/

/-- Path join, `path.join(a, b)` / `path.resolve(a, b)` for the relative
paths this code feeds it (abstract: no `..` normalization is performed,
paths are compared as strings). -/
def joinP (a b : String) : String := a ++ "/" ++ b

/-- The manifest file as the filesystem and `JSON.parse` present it:
whether the file exists, whether it parses (`some msg` is the
`SyntaxError` message), whether the top level is a JSON object (and not
an array or null), and the three optional sections. -/
structure ManifestFile where
  pathExists : Bool
  parseErr : Option String
  topIsObject : Bool
  forge : DepsInput
  npm : DepsInput
  yarn : DepsInput

/-- `ForgeTool.readDependenciesManifest` (src/tools/forge-tool.ts):
missing file, JSON syntax error, non-object top level, a malformed
section, and an all-empty manifest are errors; otherwise the three
normalized token lists are returned. -/
def readDependenciesManifest (projectRoot manifestPath : String)
    (m : ManifestFile) :
    Except String (List String × List String × List String) :=
  let fullPath := joinP projectRoot manifestPath
  if !m.pathExists then
    .error ("Dependencies manifest file not found: " ++ fullPath)
  else
    match m.parseErr with
    | some msg => .error ("Invalid JSON in dependencies manifest: " ++ msg)
    | none =>
      if !m.topIsObject then
        .error ("Dependencies manifest must be a JSON object with 'forge', 'npm', and/or 'yarn' fields. Example: ...")
      else
        match normalizeDependencies m.forge "forge" with
        | .error e => .error e
        | .ok forge =>
          match normalizeDependencies m.npm "npm" with
          | .error e => .error e
          | .ok npm =>
            match normalizeDependencies m.yarn "yarn" with
            | .error e => .error e
            | .ok yarn =>
              if forge.length == 0 && npm.length == 0 && yarn.length == 0 then
                .error ("Dependencies manifest must contain at least one 'forge', 'npm', or 'yarn' field with dependencies")
              else .ok (forge, npm, yarn)

/-! ## Locating the build descriptor (`DockerManager.findMcpProjectPath`) -/

/-- The filesystem and process facts `findMcpProjectPath` consults:
the constructor-supplied MCP project path (already resolved), the
`FOUNDRY_MCP_PROJECT_PATH` environment variable (resolved), the directory
of the running module (`dirname(fileURLToPath(import.meta.url))`, falling
back to the working directory), the working directory, and an
`existsSync` oracle over paths. -/
structure PathEnv where
  ctorPath : Option String
  envPath : Option String
  currentDir : String
  cwd : String
  fsExists : String → Bool

/-- A candidate directory qualifies only when both descriptor files
co-exist in it: `Dockerfile.foundry` and `docker-compose.yml`. -/
def hasBoth (ex : String → Bool) (p : String) : Bool :=
  ex (joinP p "Dockerfile.foundry") && ex (joinP p "docker-compose.yml")

/-- `DockerManager.findMcpProjectPath` (src/docker-manager.ts), with the
code's nested-if structure: constructor path (its `docker` subdirectory
first, then itself), the environment variable likewise, then
`currentDir/docker`, `cwd/docker`, and finally the common fallbacks
`currentDir/../docker`, `currentDir/../../docker`, `currentDir`,
`currentDir/..`.  Returns the first candidate holding both files, else
null. -/
def findMcpProjectPath (env : PathEnv) : Option String :=
  let try1 : Option String :=
    match env.ctorPath with
    | some m =>
        if hasBoth env.fsExists (joinP m "docker") then some (joinP m "docker")
        else if hasBoth env.fsExists m then some m
        else none
    | none => none
  match try1 with
  | some p => some p
  | none =>
    let try2 : Option String :=
      match env.envPath with
      | some e =>
          if hasBoth env.fsExists (joinP e "docker") then some (joinP e "docker")
          else if hasBoth env.fsExists e then some e
          else none
      | none => none
    match try2 with
    | some p => some p
    | none =>
      if hasBoth env.fsExists (joinP env.currentDir "docker") then
        some (joinP env.currentDir "docker")
      else if hasBoth env.fsExists (joinP env.cwd "docker") then
        some (joinP env.cwd "docker")
      else
        let commonPaths : List String :=
          [joinP (joinP env.currentDir "..") "docker",
           joinP (joinP (joinP env.currentDir "..") "..") "docker",
           env.currentDir,
           joinP env.currentDir ".."]
        commonPaths.find? (hasBoth env.fsExists)

/-- The documented search order, as one flat candidate list. -/
def mcpCandidates (env : PathEnv) : List String :=
  (match env.ctorPath with
   | some m => [joinP m "docker", m]
   | none => []) ++
  (match env.envPath with
   | some e => [joinP e "docker", e]
   | none => []) ++
  [joinP env.currentDir "docker",
   joinP env.cwd "docker",
   joinP (joinP env.currentDir "..") "docker",
   joinP (joinP (joinP env.currentDir "..") "..") "docker",
   env.currentDir,
   joinP env.currentDir ".."]

/-! ## Image provisioning (`DockerManager.ensureImageExists`) -/

/-- The effects the provisioning path consults: the result of
`docker.getImage("foundry-sandbox:latest").inspect()`, the descriptor
search environment, whether a compose command is available
(`getComposeCommand`), and how the spawned build subprocess terminates
(`some code` = close event with that exit code, `none` = error event). -/
structure ProvisionEnv where
  imageInspect : Except DockerError Unit
  paths : PathEnv
  composeAvailable : Bool
  buildClose : Option Int
  buildSpawnErr : String

/-- The fixed message `ensureImageExists` throws when the image is missing
and no descriptor location qualifies (src/docker-manager.ts). -/
def noAutoBuildMsg : String :=
  "Docker image 'foundry-sandbox:latest' not found and cannot auto-build. Please set FOUNDRY_MCP_PROJECT_PATH environment variable to point to MCP server directory (containing Dockerfile.foundry and docker-compose.yml), or build manually: docker-compose build foundry-sandbox"

/-- `DockerManager.buildImageWithCompose` (src/docker-manager.ts): the two
descriptor files are re-checked with `existsSync` (thrown unwrapped), a
missing compose command is thrown inside the try block and re-wrapped
with the "Failed to build Docker image using docker-compose:" prefix,
and the returned build promise (not awaited inside the try) rejects
unwrapped: exit code 0 resolves, a nonzero close code rejects with
"docker-compose build failed with exit code N", a process error event
rejects with "Failed to execute docker-compose: ...". -/
def buildImageWithCompose (mcpProjectPath : String) (env : ProvisionEnv) :
    Except String Unit :=
  if !env.paths.fsExists (joinP mcpProjectPath "Dockerfile.foundry") then
    .error ("Dockerfile.foundry not found at: " ++
      joinP mcpProjectPath "Dockerfile.foundry")
  else if !env.paths.fsExists (joinP mcpProjectPath "docker-compose.yml") then
    .error ("docker-compose.yml not found at: " ++
      joinP mcpProjectPath "docker-compose.yml")
  else if !env.composeAvailable then
    .error ("Failed to build Docker image using docker-compose: Neither 'docker compose' nor 'docker-compose' is available. Please install Docker Compose.")
  else
    match env.buildClose with
    | some code =>
        if code == 0 then .ok ()
        else .error ("docker-compose build failed with exit code " ++ toString code)
    | none =>
        .error ("Failed to execute docker-compose: " ++ env.buildSpawnErr)

/-- `DockerManager.ensureImageExists` (src/docker-manager.ts): a successful
image inspect returns at once; a missing-image error triggers the
descriptor search and an automatic build; any other inspect error is
rethrown. -/
def ensureImageExists (env : ProvisionEnv) : Except String Unit :=
  match env.imageInspect with
  | .ok () => .ok ()
  | .error e =>
      if e.isImageMissing then
        match findMcpProjectPath env.paths with
        | none => .error noAutoBuildMsg
        | some p => buildImageWithCompose p env
      else .error e.message

/-! ## Dependency installation (`DockerManager.installDependenciesFromManifest`) -/

/-- JavaScript `a || b` on strings: `b` when `a` is empty. -/
def orEmpty (a b : String) : String := if a == "" then b else a

/-- The per-exec outcomes the installer's environment supplies, one field
per distinct exec call the code can issue.  Each is the triple
`_captureStreamOutput` works from (stream termination, inspect result,
demultiplexed output). -/
structure InstallEnv where
  mkdirLib : String → ExecEvt
  testPackageJson : ExecEvt
  testNodeModules : ExecEvt
  whichNpm : ExecEvt
  npmInstallProject : ExecEvt
  whichNpmPkgs : ExecEvt
  npmInstallPkgs : ExecEvt
  whichYarn : ExecEvt
  yarnAddPkgs : ExecEvt
  forgeInstall : String → ExecEvt

/-- The outcome of one helper (`installNpmDependencies` and friends):
its boolean result, the `addLog` entries it appended, and how many exec
instances it created.  These helpers never throw. -/
structure HelperOutcome where
  ok : Bool
  log : List String
  execs : Nat
  deriving Repr, DecidableEq

/-- `DockerManager.installNpmDependencies` (src/docker-manager.ts): check
for `package.json` (absent: skip, success), check for `node_modules`
(present: skip, success), check for `npm` (absent: warn, success), run
`npm install --legacy-peer-deps` (nonzero exit: warn, failure); every
thrown error is caught and logged as a warning with result false. -/
def installNpmDependencies (cid : Option String) (env : InstallEnv) :
    HelperOutcome :=
  match cid with
  | none => { ok := false, log := [], execs := 0 }
  | some _ =>
    match execFinish 10000 env.testPackageJson with
    | .error m =>
        { ok := false
          log := ["Warning: Failed to install npm dependencies: " ++ m]
          execs := 1 }
    | .ok check =>
      if check.exitCode != 0 then { ok := true, log := [], execs := 1 }
      else
        match execFinish 10000 env.testNodeModules with
        | .error m =>
            { ok := false
              log := ["Warning: Failed to install npm dependencies: " ++ m]
              execs := 2 }
        | .ok nodeModules =>
          if nodeModules.exitCode == 0 then { ok := true, log := [], execs := 2 }
          else
            match execFinish 10000 env.whichNpm with
            | .error m =>
                { ok := false
                  log := ["Warning: Failed to install npm dependencies: " ++ m]
                  execs := 3 }
            | .ok npmCheck =>
              if npmCheck.exitCode != 0 then
                { ok := true
                  log := ["Warning: npm is not installed in the container, skipping npm dependencies"]
                  execs := 3 }
              else
                match execFinish 300000 env.npmInstallProject with
                | .error m =>
                    { ok := false
                      log := ["Warning: Failed to install npm dependencies: " ++ m]
                      execs := 4 }
                | .ok npmResult =>
                  if npmResult.exitCode == 0 then
                    { ok := true
                      log := ["npm dependencies installed successfully"]
                      execs := 4 }
                  else
                    { ok := false
                      log := ["Warning: npm 依赖安装失败: " ++
                        orEmpty npmResult.stderr npmResult.stdout]
                      execs := 4 }

/-- `DockerManager.installNpmPackages` (src/docker-manager.ts): no-op for
an empty list or a missing container; otherwise check for `npm`, then
`npm install --legacy-peer-deps <packages>`; failures are logged, never
thrown. -/
def installNpmPackages (cid : Option String) (packages : List String)
    (env : InstallEnv) : HelperOutcome :=
  match cid with
  | none => { ok := true, log := [], execs := 0 }
  | some _ =>
    if packages.isEmpty then { ok := true, log := [], execs := 0 }
    else
      match execFinish 10000 env.whichNpmPkgs with
      | .error m =>
          { ok := true
            log := ["Warning: Failed to install npm packages: " ++ m]
            execs := 1 }
      | .ok npmCheck =>
        if npmCheck.exitCode != 0 then
          { ok := true
            log := ["Warning: npm is not installed in the container, skipping npm packages"]
            execs := 1 }
        else
          match execFinish 300000 env.npmInstallPkgs with
          | .error m =>
              { ok := true
                log := ["Warning: Failed to install npm packages: " ++ m]
                execs := 2 }
          | .ok npmResult =>
            if npmResult.exitCode == 0 then
              { ok := true
                log := ["npm packages installed successfully: " ++
                  String.intercalate ", " packages]
                execs := 2 }
            else
              { ok := true
                log := ["Warning: npm 包安装失败: " ++
                  orEmpty npmResult.stderr npmResult.stdout]
                execs := 2 }

/-- `DockerManager.installYarnPackages` (src/docker-manager.ts): same
shape as `installNpmPackages` with `yarn` / `yarn add`. -/
def installYarnPackages (cid : Option String) (packages : List String)
    (env : InstallEnv) : HelperOutcome :=
  match cid with
  | none => { ok := true, log := [], execs := 0 }
  | some _ =>
    if packages.isEmpty then { ok := true, log := [], execs := 0 }
    else
      match execFinish 10000 env.whichYarn with
      | .error m =>
          { ok := true
            log := ["Warning: Failed to install yarn packages: " ++ m]
            execs := 1 }
      | .ok yarnCheck =>
        if yarnCheck.exitCode != 0 then
          { ok := true
            log := ["Warning: yarn is not installed in the container, skipping yarn packages"]
            execs := 1 }
        else
          match execFinish 300000 env.yarnAddPkgs with
          | .error m =>
              { ok := true
                log := ["Warning: Failed to install yarn packages: " ++ m]
                execs := 2 }
          | .ok yarnResult =>
            if yarnResult.exitCode == 0 then
              { ok := true
                log := ["yarn packages installed successfully: " ++
                  String.intercalate ", " packages]
                execs := 2 }
            else
              { ok := true
                log := ["Warning: yarn 包安装失败: " ++
                  orEmpty yarnResult.stderr yarnResult.stdout]
                execs := 2 }

/-- The per-dependency error text after the forge loop's cleanup: split on
newlines, drop nightly-warning noise, rejoin, trim
(src/docker-manager.ts, forge install failure branch). -/
def cleanForgeError (errorOutput : String) : String :=
  (String.intercalate "\n"
    ((errorOutput.splitOn "\n").filter
      (fun line =>
        !(strIncludes line "nightly build") &&
          !(strIncludes line "FOUNDRY_DISABLE_NIGHTLY_WARNING")))).trim

/-- `[i/N]` progress marker of the forge loop. -/
def progressTag (i total : Nat) : String :=
  "[" ++ toString i ++ "/" ++ toString total ++ "]"

/-- The accumulated result of the forge install loop: counters,
`addLog` entries, exec count, and the first uncaught rejection (which
aborts the loop and lands in the method's outer catch). -/
structure ForgeLoopOutcome where
  succ : Nat
  failed : Nat
  attempted : Nat
  log : List String
  execs : Nat
  raised : Option String
  deriving Repr, DecidableEq

/-- The forge install loop (src/docker-manager.ts, inside
`installDependenciesFromManifest`): one `forge install --root /workspace
--no-git <dep>` exec per dependency, in order; exit code 0 bumps
`successCount`, any other exit code bumps `failedCount`; a rejected exec
promise propagates out of the loop. -/
def forgeLoop (env : InstallEnv) (total : Nat) :
    List String → Nat → ForgeLoopOutcome
  | [], _ =>
      { succ := 0, failed := 0, attempted := 0, log := [], execs := 0
        raised := none }
  | dependency :: rest, i =>
      let tag := progressTag (i + 1) total
      let startMsg := tag ++ " 正在使用 forge install --no-git 安装依赖: " ++ dependency
      match execFinish 300000 (env.forgeInstall dependency) with
      | .error m =>
          { succ := 0, failed := 0, attempted := 1, log := [startMsg]
            execs := 1, raised := some m }
      | .ok installResult =>
          let stepLog :=
            if installResult.exitCode == 0 then
              [startMsg, tag ++ " 依赖 " ++ dependency ++ " 安装成功"]
            else
              let cleanError :=
                cleanForgeError (orEmpty installResult.stderr installResult.stdout)
              [startMsg,
               tag ++ " 依赖 " ++ dependency ++ " 安装失败" ++
                 (if cleanError != "" then ": " ++ cleanError else "")]
          let restOutcome := forgeLoop env total rest (i + 1)
          { succ := (if installResult.exitCode == 0 then 1 else 0) + restOutcome.succ
            failed := (if installResult.exitCode == 0 then 0 else 1) + restOutcome.failed
            attempted := 1 + restOutcome.attempted
            log := stepLog ++ restOutcome.log
            execs := 1 + restOutcome.execs
            raised := restOutcome.raised }

/-- What the method returns to its caller when it returns at all.  The
TypeScript function's declared result is `Promise<void>`, so a normal
completion yields the unit value; `counters` is the shape the
specification describes instead (an aggregate-counts object) and is never
produced by the code. -/
inductive RetVal where
  | unit
  | counters (attempted succeeded failed : Nat)
  deriving Repr, DecidableEq

/-- The observable outcome of one `installDependenciesFromManifest` call:
the thrown error if any, the returned value if it returned, the `addLog`
entries, the forge-loop counters, and how many exec instances were
created in total. -/
structure InstallOutcome where
  raised : Option String
  retVal : Option RetVal
  log : List String
  succ : Nat
  failed : Nat
  attempted : Nat
  execCount : Nat
  deriving Repr, DecidableEq

/-- The mkdir pass over the deduplicated libs directories: one
`mkdir -p <libPath>` exec each, results ignored, a rejection propagating
to the outer catch. -/
def mkdirPass (env : InstallEnv) : List String → Nat × Option String
  | [] => (0, none)
  | libPath :: rest =>
      match execFinish 10000 (env.mkdirLib libPath) with
      | .error m => (1, some m)
      | .ok _ =>
          let (n, r) := mkdirPass env rest
          (1 + n, r)

/-- `DockerManager.installDependenciesFromManifest` (src/docker-manager.ts).
Throws only when no container handle is set; with zero total dependencies
it logs and returns; otherwise it creates the libs directories, runs the
project npm install, the manifest npm and yarn installs, then the forge
loop with its counters and completion log line; every error thrown inside
the try block is caught, logged as a warning, and swallowed — the method
then returns normally (with no value: `Promise<void>`). -/
def installDependenciesFromManifest (cid : Option String)
    (forgeDependencies npmDependencies yarnDependencies : List String)
    (libsPaths : List String) (env : InstallEnv) : InstallOutcome :=
  match cid with
  | none =>
      { raised := some "Container not created. Call createAndStartContainer() first."
        retVal := none, log := [], succ := 0, failed := 0, attempted := 0
        execCount := 0 }
  | some c =>
    let totalDeps := forgeDependencies.length + npmDependencies.length +
      yarnDependencies.length
    if totalDeps == 0 then
      { raised := none, retVal := some .unit
        log := ["No dependencies to install"]
        succ := 0, failed := 0, attempted := 0, execCount := 0 }
    else
      let (mkdirExecs, mkdirRaised) := mkdirPass env libsPaths.eraseDups
      match mkdirRaised with
      | some m =>
          { raised := none, retVal := some .unit
            log := ["Warning: Failed to install dependencies: " ++ m]
            succ := 0, failed := 0, attempted := 0, execCount := mkdirExecs }
      | none =>
        let npmProject := installNpmDependencies (some c) env
        let npmPkgs := installNpmPackages (some c) npmDependencies env
        let yarnPkgs := installYarnPackages (some c) yarnDependencies env
        if forgeDependencies.isEmpty then
          { raised := none, retVal := some .unit
            log := npmProject.log ++ npmPkgs.log ++ yarnPkgs.log
            succ := 0, failed := 0, attempted := 0
            execCount := mkdirExecs + npmProject.execs + npmPkgs.execs +
              yarnPkgs.execs }
        else
          let n := forgeDependencies.length
          let startMsg := "开始使用 forge install --no-git 安装 " ++ toString n ++
            " 个 forge 依赖项..."
          let loopOutcome := forgeLoop env n forgeDependencies 0
          match loopOutcome.raised with
          | some m =>
              { raised := none, retVal := some .unit
                log := npmProject.log ++ npmPkgs.log ++ yarnPkgs.log ++
                  [startMsg] ++ loopOutcome.log ++
                  ["Warning: Failed to install dependencies: " ++ m]
                succ := loopOutcome.succ, failed := loopOutcome.failed
                attempted := loopOutcome.attempted
                execCount := mkdirExecs + npmProject.execs + npmPkgs.execs +
                  yarnPkgs.execs + loopOutcome.execs }
          | none =>
              let completeMsg := "Forge 依赖处理完成：成功 " ++
                toString loopOutcome.succ ++ " 个，失败 " ++
                toString loopOutcome.failed ++ " 个（共 " ++ toString n ++ " 个）"
              { raised := none, retVal := some .unit
                log := npmProject.log ++ npmPkgs.log ++ yarnPkgs.log ++
                  [startMsg] ++ loopOutcome.log ++ [completeMsg]
                succ := loopOutcome.succ, failed := loopOutcome.failed
                attempted := loopOutcome.attempted
                execCount := mkdirExecs + npmProject.execs + npmPkgs.execs +
                  yarnPkgs.execs + loopOutcome.execs }

/-! ## Container lifecycle (`DockerManager.createAndStartContainer`) -/

/-- The engine-call outcomes `createAndStartContainer` consults:
`docker.ping()`, the provisioning environment, `docker.createContainer`,
`container.start()`, and the post-start `container.inspect()` reporting
the `State.Running` flag. -/
structure CreateEnv where
  ping : Except DockerError Unit
  provision : ProvisionEnv
  createContainer : Except DockerError Unit
  startContainer : Except DockerError Unit
  inspectRunning : Except DockerError Bool

/-- The manager-plus-world state threaded through a workflow run: the
`containerId` field of the `DockerManager`, the number of containers
currently alive on the engine (incremented when a create call succeeds,
decremented when a remove call succeeds), the number of create calls
issued, the number of `removeContainer` invocations, and the `addLog`
entries. -/
structure MgrState where
  containerId : Option String
  live : Nat
  createCalls : Nat
  removeCalls : Nat
  log : List String
  deriving Repr, DecidableEq

/-- The all-zero starting state of a fresh `DockerManager`. -/
def MgrState.init : MgrState :=
  { containerId := none, live := 0, createCalls := 0, removeCalls := 0
    log := [] }

/-- `DockerManager.createAndStartContainer` (src/docker-manager.ts):
liveness probe, image provisioning, then — inside a try block whose catch
wraps every error with "Failed to create and start container:" — the
engine create call (on success the container is alive on the engine),
the start call, and the running check.  The `containerId` field is
assigned only after the running check passes, so on any failure after a
successful create call the container is alive but unrecorded. -/
def createAndStartContainer (st : MgrState) (env : CreateEnv)
    (containerName : String) : MgrState × Except String Unit :=
  match env.ping with
  | .error e =>
      (st, .error ("Docker is not available. Please ensure Docker is running. Error: " ++ e.message))
  | .ok () =>
    match ensureImageExists env.provision with
    | .error m => (st, .error m)
    | .ok () =>
      let st := { st with createCalls := st.createCalls + 1 }
      match env.createContainer with
      | .error e =>
          (st, .error ("Failed to create and start container: " ++ e.message))
      | .ok () =>
        let st := { st with live := st.live + 1 }
        match env.startContainer with
        | .error e =>
            (st, .error ("Failed to create and start container: " ++ e.message))
        | .ok () =>
          match env.inspectRunning with
          | .error e =>
              (st, .error ("Failed to create and start container: " ++ e.message))
          | .ok running =>
            if !running then
              (st, .error "Failed to create and start container: Container created but is not running")
            else
              ({ st with
                  containerId := some containerName
                  log := st.log ++
                    ["Container '" ++ containerName ++
                      "' created and started (ID: " ++ containerName.take 12 ++ ")"] },
               .ok ())

/-- `DockerManager.execCommand` (src/docker-manager.ts): creates the
container first when none is recorded, then runs one exec and settles per
`execFinish`; a resolved call also logs the exit-code summary line. -/
def execCommand (st : MgrState) (createEnv : CreateEnv)
    (containerName : String) (e : ExecEvt) (timeout : Nat) :
    MgrState × Except String ExecutionResult :=
  let (st, created) :=
    match st.containerId with
    | none => createAndStartContainer st createEnv containerName
    | some _ => (st, .ok ())
  match created with
  | .error m => (st, .error m)
  | .ok () =>
    match execFinish timeout e with
    | .error m => (st, .error m)
    | .ok r =>
        let resultLog :=
          if r.exitCode == 0 then
            "Command executed successfully (exit code: " ++ toString r.exitCode ++ ")"
          else "Command failed (exit code: " ++ toString r.exitCode ++ ")"
        ({ st with log := st.log ++ [resultLog] }, .ok r)

/-- `removeContainer` threaded through `MgrState`: the handle is nulled
per `removeContainer`, the live count drops only when the engine remove
call succeeded, and the invocation is counted. -/
def removeContainerState (st : MgrState) (env : RemoveEnv) : MgrState :=
  let o := removeContainer st.containerId env
  { st with
      containerId := o.containerId
      live := st.live - (if o.engineRemoved then 1 else 0)
      removeCalls := st.removeCalls + 1
      log := st.log ++ o.log }

/-! ## Verdict and failure-reason extraction (`ForgeTool.runTest`) -/

/-- The combined output the reason matcher scans: stdout, with stderr
appended under an "STDERR:" banner when non-empty. -/
def formatOutput (stdout stderr : String) : String :=
  if stderr == "" then stdout else stdout ++ "\n\nSTDERR:\n" ++ stderr

/-- The failure keywords of the extraction regex
`(Error|Failed|Revert|ReentrancyGuard|AssertionError|Unable to resolve)[^\n]*`,
in source order. -/
def failKeywords : List (List Char) :=
  ["Error", "Failed", "Revert", "ReentrancyGuard", "AssertionError",
   "Unable to resolve"].map String.toList

/-- Does some failure keyword start at the head of `cs`? -/
def keywordHere (cs : List Char) : Bool :=
  failKeywords.any (fun k => k.isPrefixOf cs)

/-- JavaScript `String.prototype.match` with the extraction regex: the
leftmost position where a keyword starts wins, and the match extends to
the end of that line (`[^\n]*` is greedy and no keyword contains a
newline). -/
def findMatch : List Char → Option (List Char)
  | [] => none
  | c :: rest =>
      if keywordHere (c :: rest) then some (takeLine (c :: rest))
      else findMatch rest

/-- The extracted failure reason: the regex match when there is one, the
generic fallback otherwise (src/tools/forge-tool.ts, runTest). -/
def extractReason (formatted : String) : String :=
  match findMatch formatted.toList with
  | some m => String.mk m
  | none => "Test execution failed"

/-- The verdict and reason `runTest` derives from the exec result:
PASS exactly when the exit code is 0; on FAIL, the extracted reason. -/
def judge (exitCode : Int) (stdout stderr : String) : String × Option String :=
  if exitCode == 0 then ("PASS", none)
  else ("FAIL", some (extractReason (formatOutput stdout stderr)))

/-- Does some failure keyword start at offset `p` of `cs`? -/
def keywordAt (cs : List Char) (p : Nat) : Bool :=
  keywordHere (cs.drop p)

/-! ## The workflow driver (`ForgeTool.runTest`) -/

/-- What one `runTest` call returns to the protocol layer, reduced to its
decision content: every pre-container validation failure and the catch
path return a text beginning "FAIL. Error:" carrying the given message;
the normal path returns the verdict report. -/
inductive RunResult where
  | failErr (msg : String)
  | report (status : String) (reason : Option String) (stdout stderr : String)
  deriving Repr, DecidableEq

/-- The environment of one `runTest` invocation: the request arguments,
the filesystem facts the validations consult, the parse outcomes, and
the engine environments of each downstream step. -/
structure RunEnv where
  argsError : Option String
  projectRoot : String
  projectRootExists : Bool
  foundryTomlExists : Bool
  tomlOutcome : Except String (Option (List String))
  manifestPath : String
  manifest : ManifestFile
  testFolderPath : String
  testFolderExists : Bool
  containerName : String
  create : CreateEnv
  install : InstallEnv
  testExec : ExecEvt
  remove : RemoveEnv
  enablePrune : Bool

/-- The observable outcome of one `runTest` call. -/
structure RunOutcome where
  raised : Option String
  result : Option RunResult
  st : MgrState
  deriving Repr, DecidableEq

/-- An outcome for the validation paths that precede any `DockerManager`
work: a returned error text, the state untouched at zero. -/
def earlyResult (msg : String) : RunOutcome :=
  { raised := none, result := some (.failErr msg), st := MgrState.init }

/-- The libs list `runTest` derives from `parseFoundryToml` (an absent or
non-array or empty `libs` field falls back to `["lib"]`). -/
def libsFromToml (libsField : Option (List String)) : List String :=
  match libsField with
  | some l => if l.isEmpty then ["lib"] else l
  | none => ["lib"]

/-- The try-block body of `runTest` (steps 1–4 and the report), threading
the manager state; its error is what the catch block receives. -/
def runTestSteps (env : RunEnv) (deps : List String × List String × List String)
    (libs : List String) : MgrState × Except String RunResult :=
  let (forgeDeps, npmDeps, yarnDeps) := deps
  let (st1, r1) := createAndStartContainer MgrState.init env.create env.containerName
  match r1 with
  | .error m => (st1, .error m)
  | .ok () =>
    let inst := installDependenciesFromManifest st1.containerId forgeDeps npmDeps
      yarnDeps libs env.install
    let st2 := { st1 with log := st1.log ++ inst.log }
    match inst.raised with
    | some m => (st2, .error m)
    | none =>
      let (st3, r3) := execCommand st2 env.create env.containerName env.testExec 600000
      match r3 with
      | .error m => (st3, .error m)
      | .ok result =>
        let st4 := removeContainerState st3 env.remove
        let (status, reason) := judge result.exitCode result.stdout result.stderr
        (st4, .ok (.report status reason result.stdout result.stderr))

/-- `ForgeTool.runTest` (src/tools/forge-tool.ts): schema validation (a
failure here is thrown, not returned), then the pre-container validations
(project root, foundry.toml, toml parse, dependency manifest, test
folder), each returning a "FAIL. Error:" text with zero containers
touched; then the try block of steps 1–4; its catch removes the container
(best-effort) and returns the error as a "FAIL. Error:" text. -/
def runTest (env : RunEnv) : RunOutcome :=
  match env.argsError with
  | some m => { raised := some m, result := none, st := MgrState.init }
  | none =>
    if !env.projectRootExists then
      earlyResult ("Project root directory not found: " ++ env.projectRoot)
    else if !env.foundryTomlExists then
      earlyResult ("foundry.toml not found at " ++ joinP env.projectRoot "foundry.toml")
    else
      match env.tomlOutcome with
      | .error m => earlyResult m
      | .ok libsField =>
        let libs := libsFromToml libsField
        match readDependenciesManifest env.projectRoot env.manifestPath env.manifest with
        | .error m => earlyResult m
        | .ok deps =>
          if !env.testFolderExists then
            earlyResult ("Test folder not found: " ++
              joinP env.projectRoot env.testFolderPath)
          else
            match runTestSteps env deps libs with
            | (st, .ok r) => { raised := none, result := some r, st := st }
            | (st, .error m) =>
                let st := removeContainerState st env.remove
                { raised := none, result := some (.failErr m), st := st }

/-! ## Concurrent image builds (two interleaved `ensureImageExists` runs)

`ensureImageExists` / `buildImageWithCompose` (src/docker-manager.ts)
acquire no lock of any kind; each workflow run constructs its own
`DockerManager`, so two concurrent runs share only the engine's image
store.  The build path is modelled as a small-step process with one
suspension point per awaited call: the image inspect (`await
...inspect()`), the build spawn, and the build completion (`close`
event).  A schedule is the list of which process moves next. -/

/-- The program counter of one run's `ensureImageExists`: about to
inspect the image; having detected it missing; having spawned the build
subprocess; finished. -/
inductive BuildPC where
  | inspecting
  | detectedMissing
  | building
  | finished
  deriving Repr, DecidableEq

/-- The shared-engine state of two interleaved provisioning runs: whether
the `foundry-sandbox:latest` tag exists, how many build subprocesses for
that tag are in flight, and each run's program counter. -/
structure BuildSys where
  imagePresent : Bool
  inFlight : Nat
  pc0 : BuildPC
  pc1 : BuildPC
  deriving Repr, DecidableEq

/-- One micro-step of one run, as the code orders them: the inspect call
reads the shared image store (present: done; absent: missing detected);
a run that detected the image missing spawns a build subprocess; a
running build completes, publishing the image. -/
def buildStep (present : Bool) (inFlight : Nat) (pc : BuildPC) :
    BuildPC × Bool × Nat :=
  match pc with
  | .inspecting =>
      if present then (.finished, present, inFlight)
      else (.detectedMissing, present, inFlight)
  | .detectedMissing => (.building, present, inFlight + 1)
  | .building => (.finished, true, inFlight - 1)
  | .finished => (.finished, present, inFlight)

/-- Advance the chosen run by one micro-step. -/
def sysStep (s : BuildSys) (which : Bool) : BuildSys :=
  if which then
    let (pc, present, inFlight) := buildStep s.imagePresent s.inFlight s.pc1
    { s with pc1 := pc, imagePresent := present, inFlight := inFlight }
  else
    let (pc, present, inFlight) := buildStep s.imagePresent s.inFlight s.pc0
    { s with pc0 := pc, imagePresent := present, inFlight := inFlight }

/-- The trace of states a schedule produces, initial state included. -/
def sysTrace (s : BuildSys) : List Bool → List BuildSys
  | [] => [s]
  | w :: rest => s :: sysTrace (sysStep s w) rest

/-- Both runs start at the inspect call with the image absent and no
build in flight. -/
def buildInit : BuildSys :=
  { imagePresent := false, inFlight := 0, pc0 := .inspecting, pc1 := .inspecting }

/-- The most builds simultaneously in flight along a schedule. -/
def maxInFlight (s : BuildSys) (sched : List Bool) : Nat :=
  ((sysTrace s sched).map BuildSys.inFlight).foldr Nat.max 0

/-- The schedule in which both runs inspect (each seeing the image
absent) before either spawns its build. -/
def racySchedule : List Bool := [false, true, false, true, false, true]

/-! ## Claims -/

/-- Claim C10: calling `installDependenciesFromManifest` while no
container has been created throws "Container not created. Call
createAndStartContainer() first." — no exec is issued, nothing is
installed, no value is returned and no log entry is made. -/
theorem installAll_requires_container (f n y libs : List String)
    (env : InstallEnv) :
    installDependenciesFromManifest none f n y libs env =
      { raised := some "Container not created. Call createAndStartContainer() first."
        retVal := none, log := [], succ := 0, failed := 0, attempted := 0
        execCount := 0 } := rfl

/-- An exec call that ends cleanly with the given exit code and no
output. -/
def okEvt (code : Int) : ExecEvt :=
  { evt := .ended, inspectExec := .ok (some code), stdout := "", stderr := "" }

/-- An installer environment where every exec succeeds except the forge
install of "dep/a", which exits 1. -/
def envC2 : InstallEnv :=
  { mkdirLib := fun _ => okEvt 0
    testPackageJson := okEvt 1
    testNodeModules := okEvt 1
    whichNpm := okEvt 0
    npmInstallProject := okEvt 0
    whichNpmPkgs := okEvt 0
    npmInstallPkgs := okEvt 0
    whichYarn := okEvt 0
    yarnAddPkgs := okEvt 0
    forgeInstall := fun d => if d == "dep/a" then okEvt 1 else okEvt 0 }

/-- Claim C2 counterexample: on the two-item dependency list where the
first install fails and the second succeeds, the method raises nothing
but returns the unit value (its TypeScript type is `Promise<void>`), not
an aggregate-counters object attempted=2, succeeded=1, failed=1. -/
theorem installAll_returns_void_counterexample :
    (installDependenciesFromManifest (some "c0") ["dep/a", "dep/b"] [] [] ["lib"]
      envC2).raised = none ∧
    (installDependenciesFromManifest (some "c0") ["dep/a", "dep/b"] [] [] ["lib"]
      envC2).retVal = some RetVal.unit ∧
    some RetVal.unit ≠ some (RetVal.counters 2 1 1) :=
  ⟨rfl, rfl, by decide⟩

/-- Claim C2 (amended): with a live container, the method never raises —
individual install failures and even rejected execs are caught — and for
a two-item forge dependency list whose first install exits nonzero and
whose second exits 0, it completes with internal counters attempted=2,
succeeded=1, failed=1, records them in the completion log entry, and
returns no value (void). -/
theorem installAll_total_and_counted :
    (∀ (env : InstallEnv) (c : String) (f n y libs : List String),
      (installDependenciesFromManifest (some c) f n y libs env).raised = none) ∧
    (∀ (env : InstallEnv) (c d1 d2 : String) (libs : List String) (k : Nat)
      (r1 r2 : ExecutionResult),
      mkdirPass env libs.eraseDups = (k, none) →
      execFinish 300000 (env.forgeInstall d1) = .ok r1 → r1.exitCode ≠ 0 →
      execFinish 300000 (env.forgeInstall d2) = .ok r2 → r2.exitCode = 0 →
      (installDependenciesFromManifest (some c) [d1, d2] [] [] libs env).retVal =
        some RetVal.unit ∧
      (installDependenciesFromManifest (some c) [d1, d2] [] [] libs env).attempted = 2 ∧
      (installDependenciesFromManifest (some c) [d1, d2] [] [] libs env).succ = 1 ∧
      (installDependenciesFromManifest (some c) [d1, d2] [] [] libs env).failed = 1 ∧
      "Forge 依赖处理完成：成功 1 个，失败 1 个（共 2 个）" ∈
        (installDependenciesFromManifest (some c) [d1, d2] [] [] libs env).log) := by
  constructor
  · intro env c f n y libs
    simp only [installDependenciesFromManifest]
    repeat' split
    all_goals rfl
  · intro env c d1 d2 libs k r1 r2 hmk h1 hr1 h2 hr2
    have hb1 : (r1.exitCode == 0) = false := by
      simp [hr1]
    have hb2 : (r2.exitCode == 0) = true := by
      simp [hr2]
    have hloop : forgeLoop env 2 [d1, d2] 0 =
        { succ := 1, failed := 1, attempted := 2
          log := [progressTag 1 2 ++ " 正在使用 forge install --no-git 安装依赖: " ++ d1,
                  progressTag 1 2 ++ " 依赖 " ++ d1 ++ " 安装失败" ++
                    (if cleanForgeError (orEmpty r1.stderr r1.stdout) != "" then
                      ": " ++ cleanForgeError (orEmpty r1.stderr r1.stdout) else ""),
                  progressTag 2 2 ++ " 正在使用 forge install --no-git 安装依赖: " ++ d2,
                  progressTag 2 2 ++ " 依赖 " ++ d2 ++ " 安装成功"]
          execs := 2, raised := none } := by
      simp only [forgeLoop, h1, h2, hb1, hb2]
      simp
    simp [installDependenciesFromManifest, hmk, hloop, List.mem_append]
    iterate 8 right
    decide

/-- Claim C2 witness: the concrete two-item scenario. -/
theorem installAll_total_and_counted_witness :
    (installDependenciesFromManifest (some "c0") ["dep/a", "dep/b"] [] [] ["lib"]
      envC2).retVal = some RetVal.unit ∧
    (installDependenciesFromManifest (some "c0") ["dep/a", "dep/b"] [] [] ["lib"]
      envC2).attempted = 2 ∧
    (installDependenciesFromManifest (some "c0") ["dep/a", "dep/b"] [] [] ["lib"]
      envC2).succ = 1 ∧
    (installDependenciesFromManifest (some "c0") ["dep/a", "dep/b"] [] [] ["lib"]
      envC2).failed = 1 ∧
    "Forge 依赖处理完成：成功 1 个，失败 1 个（共 2 个）" ∈
      (installDependenciesFromManifest (some "c0") ["dep/a", "dep/b"] [] [] ["lib"]
        envC2).log :=
  installAll_total_and_counted.2 envC2 "c0" "dep/a" "dep/b" ["lib"] 1
    ⟨"", "", 1⟩ ⟨"", "", 0⟩ rfl rfl (by decide) rfl rfl

/-- An exec call whose stream ends but whose inspect call fails. -/
def evC8 : ExecEvt :=
  { evt := .ended, inspectExec := .error "boom", stdout := "out", stderr := "err" }

/-- Claim C8 counterexample: when the inspect call fails, `execCommand`
does not return a result with exit code −1 — it returns no result at
all: the promise rejects with "Failed to inspect exec: ...". -/
theorem execInspectFail_counterexample :
    execFinish 600000 evC8 = .error "Failed to inspect exec: boom" ∧
    execResult? (execFinish 600000 evC8) = none := ⟨rfl, rfl⟩

/-- Claim C8 (amended): after stream completion the exit code is read via
the inspect call; an exit code of −1 denotes an inspect response that
carries no exit code (a null `ExitCode`), a present exit code is passed
through, and a failing inspect call makes the exec reject with a
"Failed to inspect exec" error instead of resolving with any result. -/
theorem execFinish_exit_code_semantics (timeout : Nat) (e : ExecEvt) :
    (e.evt = .ended → e.inspectExec = .ok none →
      execFinish timeout e = .ok ⟨e.stdout, e.stderr, -1⟩) ∧
    (∀ c, e.evt = .ended → e.inspectExec = .ok (some c) →
      execFinish timeout e = .ok ⟨e.stdout, e.stderr, c⟩) ∧
    (∀ m, e.evt = .ended → e.inspectExec = .error m →
      execFinish timeout e = .error ("Failed to inspect exec: " ++ m)) := by
  refine ⟨?_, ?_, ?_⟩
  · intro h1 h2; simp [execFinish, h1, h2]
  · intro c h1 h2; simp [execFinish, h1, h2]
  · intro m h1 h2; simp [execFinish, h1, h2]

/-- Claim C8 witness: a concrete ended stream with a null exit code in
the inspect response yields the −1 result. -/
theorem execFinish_exit_code_semantics_witness :
    execFinish 600000 { evt := .ended, inspectExec := .ok none, stdout := "o", stderr := "e" } =
      .ok ⟨"o", "e", -1⟩ :=
  (execFinish_exit_code_semantics 600000
    { evt := .ended, inspectExec := .ok none, stdout := "o", stderr := "e" }).1 rfl rfl

/-- Claim C3 counterexample: the list form `["a/b"]` normalizes to the
token "a/b" while the map form with version "latest" normalizes to
"a/b@latest" — not an identical install token. -/
theorem normalize_latest_counterexample :
    normalizeDependencies (.array [.str "a/b"]) "forge" = .ok ["a/b"] ∧
    normalizeDependencies (.object [("a/b", .str "latest")]) "forge" =
      .ok ["a/b@latest"] ∧
    ("a/b" : String) ≠ "a/b@latest" := ⟨rfl, rfl, by decide⟩

/-- Claim C3 (amended): for every dependency name, the list form yields
the bare name as its install token while the map form with version
"latest" yields the name with "@latest" appended; the two tokens are
never identical, even though both denote the latest version. -/
theorem normalize_list_vs_map_latest (n fieldName : String) :
    normalizeDependencies (.array [.str n]) fieldName = .ok [n] ∧
    normalizeDependencies (.object [(n, .str "latest")]) fieldName =
      .ok [n ++ "@latest"] ∧
    n ≠ n ++ "@latest" := by
  refine ⟨rfl, ?_, ?_⟩
  · show Except.ok [n ++ "@" ++ "latest"] = Except.ok [n ++ "@latest"]
    have hsuffix : ("@" : String) ++ "latest" = "@latest" := by decide
    rw [String.append_assoc, hsuffix]
  · intro h
    have hl := congrArg String.length h
    rw [String.length_append] at hl
    have h7 : ("@latest" : String).length = 7 := rfl
    omega

/-- Claim C4 counterexample: with no lock anywhere on the build path, the
schedule in which both runs inspect before either spawns reaches a state
with two build subprocesses for the tag in flight — the in-flight counts
along that schedule are 0,0,0,1,2,1,0, violating "at most one build in
flight at any time". -/
theorem concurrentBuild_counterexample :
    ((sysTrace buildInit racySchedule).map BuildSys.inFlight) =
      [0, 0, 0, 1, 2, 1, 0] ∧
    maxInFlight buildInit racySchedule = 2 := by decide

/-- Claim C4 (amended): the image-build path acquires no serialization
lock, so two concurrent runs that both detect the image as missing can
each have a build subprocess for the same tag in flight simultaneously:
after both inspects and both spawns, both processes are in the building
state with two builds in flight. -/
theorem concurrentBuild_unserialized :
    (sysTrace buildInit racySchedule)[4]? =
      some { imagePresent := false, inFlight := 2
             pc0 := .building, pc1 := .building } := by decide

/-- In both catch branches nothing is rethrown and the handle is
cleared. -/
theorem removeCatch_fields (cid : String) (e : DockerError) :
    (removeCatch cid e).raised = none ∧ (removeCatch cid e).containerId = none := by
  unfold removeCatch
  split <;> exact ⟨rfl, rfl⟩

/-- Along every path of `removeContainer` nothing is rethrown and the
handle is cleared. -/
theorem removeContainer_core (cid : Option String) (env : RemoveEnv) :
    (removeContainer cid env).raised = none ∧
    (removeContainer cid env).containerId = none := by
  unfold removeContainer
  split
  · exact ⟨rfl, rfl⟩
  · split
    · exact removeCatch_fields _ _
    · split
      · exact removeCatch_fields _ _
      · split
        · exact removeCatch_fields _ _
        · exact ⟨rfl, rfl⟩

/-- Claim C5: for every container-handle state and every engine behavior,
`removeContainer` never throws to its caller and clears the local handle
to null in every branch; an unknown/already-gone container (404 or
"No such container") is treated as success: no failure warning, the
"already removed" notice instead. -/
theorem removeContainer_never_throws_and_clears (cid : Option String)
    (env : RemoveEnv) :
    (removeContainer cid env).raised = none ∧
    (removeContainer cid env).containerId = none ∧
    (∀ id e, cid = some id → env.inspect = .error e → e.isContainerGone = true →
      (removeContainer cid env).warned = false ∧
      (removeContainer cid env).treatedGone = true) := by
  refine ⟨(removeContainer_core cid env).1, (removeContainer_core cid env).2, ?_⟩
  intro id e hcid hins hgone
  subst hcid
  simp only [removeContainer, hins, removeCatch, hgone]
  exact ⟨rfl, rfl⟩

/-- The engine behavior of an already-removed container: the inspect call
fails with a 404. -/
def envC5 : RemoveEnv :=
  { inspect := .error { message := "No such container: abc", statusCode := some 404 }
    stop := .ok (), remove := .ok () }

/-- The regex scan finds the leftmost keyword occurrence: when no keyword
starts before offset `p` and one starts at `p`, the match is the rest of
the line from `p`. -/
theorem findMatch_first (cs : List Char) (p : Nat)
    (hbefore : ∀ q, q < p → keywordAt cs q = false)
    (hat : keywordAt cs p = true) :
    findMatch cs = some (takeLine (cs.drop p)) := by
  induction cs generalizing p with
  | nil =>
    exfalso
    simp only [keywordAt, List.drop_nil] at hat
    exact absurd hat (by decide)
  | cons c rest ih =>
    cases p with
    | zero =>
      simp only [keywordAt, List.drop] at hat
      simp [findMatch, hat]
    | succ q =>
      have h0 : keywordHere (c :: rest) = false := by
        have := hbefore 0 (Nat.succ_pos q)
        simpa [keywordAt] using this
      simp only [findMatch, h0, if_false, List.drop_succ_cons]
      apply ih
      · intro r hr
        have := hbefore (r + 1) (by omega)
        simpa [keywordAt, List.drop_succ_cons] using this
      · simpa [keywordAt, List.drop_succ_cons] using hat

/-- When no keyword occurs anywhere in `cs`, the regex does not match. -/
theorem findMatch_none (cs : List Char)
    (hall : ∀ q, keywordAt cs q = false) :
    findMatch cs = none := by
  induction cs with
  | nil => rfl
  | cons c rest ih =>
    have h0 : keywordHere (c :: rest) = false := by
      simpa [keywordAt] using hall 0
    simp only [findMatch, h0, if_false]
    apply ih
    intro q
    simpa [keywordAt, List.drop_succ_cons] using hall (q + 1)

/-- A newline-free prefix of a character list is also a prefix of that
list's first line. -/
theorem isPrefixOf_takeLine :
    ∀ (k l : List Char), k.all (fun c => c ≠ '\n') = true →
      k.isPrefixOf l = true → k.isPrefixOf (takeLine l) = true := by
  intro k
  induction k with
  | nil => intro l _ _; simp [List.isPrefixOf]
  | cons a k' ih =>
    intro l hnl hpre
    cases l with
    | nil => simp [List.isPrefixOf] at hpre
    | cons b l' =>
      simp only [List.isPrefixOf, Bool.and_eq_true, beq_iff_eq] at hpre
      obtain ⟨hab, hrest⟩ := hpre
      subst hab
      simp only [List.all_cons, Bool.and_eq_true, decide_eq_true_eq] at hnl
      obtain ⟨ha, hk'⟩ := hnl
      have htl : takeLine (a :: l') = a :: takeLine l' := by
        simp [takeLine, List.takeWhile_cons, ha]
      rw [htl]
      simp only [List.isPrefixOf, Bool.and_eq_true, beq_iff_eq]
      exact ⟨trivial, ih l' hk' hrest⟩

/-- A prefix of the haystack is a substring of it. -/
theorem containsSub_of_isPrefixOf (l k : List Char)
    (h : k.isPrefixOf l = true) : containsSub l k = true := by
  rw [containsSub.eq_def]
  simp [h]

/-- Claim C7 counterexample: with exit code 1, an output that contains
"Revert" but an earlier "Error" occurrence yields an extracted reason
that does not contain "Revert" — the regex takes the first keyword
occurrence, not the "Revert" one. -/
theorem reasonExtraction_counterexample :
    judge 1 "Error: assertion failed\nRevert: custom" "" =
      ("FAIL", some "Error: assertion failed") ∧
    strIncludes (formatOutput "Error: assertion failed\nRevert: custom" "")
      "Revert" = true ∧
    strIncludes "Error: assertion failed" "Revert" = false := by
  refine ⟨?_, ?_, ?_⟩ <;> decide

/-- Claim C7 (amended): the verdict is PASS iff the exit code is 0; on
FAIL the reason is the match of the keyword regex at its leftmost
occurrence, so it contains "Revert" whenever "Revert" occurs in the
combined output at a position no other keyword occurrence precedes; and
when no keyword occurs at all, the reason is the generic fallback
"Test execution failed". -/
theorem verdict_and_reason (exitCode : Int) (stdout stderr : String) (p : Nat) :
    ((judge exitCode stdout stderr).1 = "PASS" ↔ exitCode = 0) ∧
    (exitCode ≠ 0 →
      (∀ q, q < p → keywordAt (formatOutput stdout stderr).toList q = false) →
      ("Revert".toList).isPrefixOf ((formatOutput stdout stderr).toList.drop p) = true →
      (judge exitCode stdout stderr).2 =
        some (extractReason (formatOutput stdout stderr)) ∧
      strIncludes (extractReason (formatOutput stdout stderr)) "Revert" = true) ∧
    (exitCode ≠ 0 →
      (∀ q, keywordAt (formatOutput stdout stderr).toList q = false) →
      (judge exitCode stdout stderr).2 = some "Test execution failed") := by
  refine ⟨?_, ?_, ?_⟩
  · by_cases h : exitCode = 0 <;> simp [judge, h]
  · intro hne hbefore hpre
    have hb : (exitCode == 0) = false := by simp [hne]
    have hat : keywordAt (formatOutput stdout stderr).toList p = true := by
      simp only [keywordAt, keywordHere, List.any_eq_true]
      exact ⟨"Revert".toList, by decide, hpre⟩
    have hfind := findMatch_first (formatOutput stdout stderr).toList p hbefore hat
    have hfind2 : findMatch (formatOutput stdout stderr).data =
        some (takeLine (List.drop p (formatOutput stdout stderr).data)) := hfind
    have hreason : extractReason (formatOutput stdout stderr) =
        String.mk (takeLine (List.drop p (formatOutput stdout stderr).data)) := by
      simp [extractReason, hfind, hfind2]
    refine ⟨by simp [judge, hb], ?_⟩
    rw [hreason]
    exact containsSub_of_isPrefixOf _ _
      (isPrefixOf_takeLine "Revert".toList _ (by decide) hpre)
  · intro hne hall
    have hb : (exitCode == 0) = false := by simp [hne]
    have hfind := findMatch_none (formatOutput stdout stderr).toList hall
    have hfind2 : findMatch (formatOutput stdout stderr).data = none := hfind
    simp [judge, hb, extractReason, hfind, hfind2]

/-- Claim C7 witness: exit code 1 with output "Revert: custom" — the
keyword occurs at offset 0, so the reason contains "Revert". -/
theorem verdict_and_reason_witness :
    (judge 1 "Revert: custom" "").2 =
      some (extractReason (formatOutput "Revert: custom" "")) ∧
    strIncludes (extractReason (formatOutput "Revert: custom" "")) "Revert" = true :=
  (verdict_and_reason 1 "Revert: custom" "" 0).2.1 (by decide)
    (fun q hq => absurd hq (Nat.not_lt_zero q)) (by decide)

/-- `List.find?` on a cons cell, in if-then-else form. -/
theorem find?_cons_ite {α : Type} (p : α → Bool) (a : α) (l : List α) :
    (a :: l).find? p = if p a then some a else l.find? p := by
  by_cases h : p a <;> simp [List.find?, h]

/-- Claim C9 helper: `findMcpProjectPath` returns exactly the first
candidate of the documented search order that holds both descriptor
files. -/
theorem findMcp_eq_find (env : PathEnv) :
    findMcpProjectPath env =
      (mcpCandidates env).find? (hasBoth env.fsExists) := by
  cases hc : env.ctorPath with
  | none =>
    cases he : env.envPath with
    | none =>
      simp only [findMcpProjectPath, mcpCandidates, hc, he, List.nil_append,
        find?_cons_ite]
    | some e =>
      simp only [findMcpProjectPath, mcpCandidates, hc, he, List.nil_append,
        List.cons_append, find?_cons_ite]
      all_goals
        by_cases c3 : hasBoth env.fsExists (joinP e "docker") <;>
          by_cases c4 : hasBoth env.fsExists e <;>
            by_cases c5 : hasBoth env.fsExists (joinP env.currentDir "docker") <;>
              by_cases c6 : hasBoth env.fsExists (joinP env.cwd "docker") <;>
                simp [c3, c4, c5, c6, find?_cons_ite]
  | some m =>
    cases he : env.envPath with
    | none =>
      simp only [findMcpProjectPath, mcpCandidates, hc, he, List.nil_append,
        List.append_nil, List.cons_append, find?_cons_ite]
      all_goals
        by_cases c1 : hasBoth env.fsExists (joinP m "docker") <;>
          by_cases c2 : hasBoth env.fsExists m <;>
            by_cases c5 : hasBoth env.fsExists (joinP env.currentDir "docker") <;>
              by_cases c6 : hasBoth env.fsExists (joinP env.cwd "docker") <;>
                simp [c1, c2, c5, c6, find?_cons_ite]
    | some e =>
      simp only [findMcpProjectPath, mcpCandidates, hc, he, List.nil_append,
        List.cons_append, find?_cons_ite]
      all_goals
        by_cases c1 : hasBoth env.fsExists (joinP m "docker") <;>
          by_cases c2 : hasBoth env.fsExists m <;>
            by_cases c3 : hasBoth env.fsExists (joinP e "docker") <;>
              by_cases c4 : hasBoth env.fsExists e <;>
                by_cases c5 : hasBoth env.fsExists (joinP env.currentDir "docker") <;>
                  by_cases c6 : hasBoth env.fsExists (joinP env.cwd "docker") <;>
                    simp [c1, c2, c3, c4, c5, c6, find?_cons_ite]

/-- Claim C9 (amended): the descriptor search accepts a candidate only
when both files co-exist there and returns the first full match of the
documented order; when no candidate matches, provisioning fails with the
fixed configuration-error message (naming the environment variable and
the manual build command) — it does not enumerate the tried paths. -/
theorem descriptorSearch_order_and_error (env : ProvisionEnv) :
    findMcpProjectPath env.paths =
      (mcpCandidates env.paths).find? (hasBoth env.paths.fsExists) ∧
    (∀ p, findMcpProjectPath env.paths = some p →
      hasBoth env.paths.fsExists p = true) ∧
    (∀ e, env.imageInspect = .error e → e.isImageMissing = true →
      findMcpProjectPath env.paths = none →
      ensureImageExists env = .error noAutoBuildMsg) := by
  refine ⟨findMcp_eq_find env.paths, ?_, ?_⟩
  · intro p hp
    rw [findMcp_eq_find env.paths] at hp
    exact List.find?_some hp
  · intro e hins hmiss hnone
    simp [ensureImageExists, hins, hmiss, hnone]

/-- A provisioning environment with no descriptor anywhere: the image
inspect 404s and no path on the filesystem exists. -/
def envC9 : ProvisionEnv :=
  { imageInspect := .error { message := "No such image: foundry-sandbox:latest"
                             statusCode := some 404 }
    paths := { ctorPath := none, envPath := none
               currentDir := "/srv/mcp/dist", cwd := "/home/user/proj"
               fsExists := fun _ => false }
    composeAvailable := true
    buildClose := some 0
    buildSpawnErr := "" }

set_option maxRecDepth 100000 in
/-- Claim C9 counterexample: with the image missing and no candidate
matching, provisioning fails with the fixed message; the working
directory's docker folder was among the candidates tried, yet the
message does not mention it — it enumerates no tried path. -/
theorem descriptorSearch_message_counterexample :
    ensureImageExists envC9 = .error noAutoBuildMsg ∧
    "/home/user/proj/docker" ∈ mcpCandidates envC9.paths ∧
    strIncludes noAutoBuildMsg "/home/user/proj/docker" = false ∧
    strIncludes noAutoBuildMsg "/srv/mcp/dist" = false := by
  refine ⟨rfl, ?_, ?_, ?_⟩ <;> decide

/-- Claim C9 witness: the no-match branch of the amended theorem at the
concrete empty filesystem. -/
theorem descriptorSearch_order_and_error_witness :
    ensureImageExists envC9 = .error noAutoBuildMsg :=
  (descriptorSearch_order_and_error envC9).2.2
    { message := "No such image: foundry-sandbox:latest", statusCode := some 404 }
    rfl (by decide) (by decide)

/-- A descriptor-search environment where every path exists. -/
def pathsDummy : PathEnv :=
  { ctorPath := none, envPath := none, currentDir := "/srv/mcp/dist"
    cwd := "/srv/mcp", fsExists := fun _ => true }

/-- A provisioning environment whose image already exists. -/
def provisionOk : ProvisionEnv :=
  { imageInspect := .ok (), paths := pathsDummy, composeAvailable := true
    buildClose := some 0, buildSpawnErr := "" }

/-- A lifecycle environment where every engine call succeeds. -/
def createOk : CreateEnv :=
  { ping := .ok (), provision := provisionOk, createContainer := .ok ()
    startContainer := .ok (), inspectRunning := .ok true }

/-- A removal environment where every engine call succeeds against a
running container. -/
def removeOk : RemoveEnv :=
  { inspect := .ok true, stop := .ok (), remove := .ok () }

/-- A well-formed one-dependency manifest file. -/
def manifestOkOne : ManifestFile :=
  { pathExists := true, parseErr := none, topIsObject := true
    forge := .array [.str "foundry-rs/forge-std"], npm := .undef
    yarn := .undef }

/-- A run whose project directory exists but lacks foundry.toml; every
downstream environment is benign. -/
def envC6 : RunEnv :=
  { argsError := none, projectRoot := "/proj", projectRootExists := true
    foundryTomlExists := false, tomlOutcome := .ok (some ["lib"])
    manifestPath := "deps.json", manifest := manifestOkOne
    testFolderPath := "test", testFolderExists := true
    containerName := "foundry-sandbox-1-ab", create := createOk
    install := envC2, testExec := okEvt 0, remove := removeOk
    enablePrune := false }

/-- Claim C6: when the project directory lacks foundry.toml, `runTest`
returns the configuration-error result before any container work: the
container-creation call is never reached and the live-container count
stays zero. -/
theorem missing_toml_aborts_before_container (env : RunEnv)
    (h1 : env.argsError = none) (h2 : env.projectRootExists = true)
    (h3 : env.foundryTomlExists = false) :
    runTest env = earlyResult ("foundry.toml not found at " ++
      joinP env.projectRoot "foundry.toml") ∧
    (runTest env).st.createCalls = 0 ∧ (runTest env).st.live = 0 := by
  have hrt : runTest env = earlyResult ("foundry.toml not found at " ++
      joinP env.projectRoot "foundry.toml") := by
    simp [runTest, h1, h2, h3]
  exact ⟨hrt, by rw [hrt]; rfl, by rw [hrt]; rfl⟩

/-- Claim C6 witness: the concrete run without foundry.toml. -/
theorem missing_toml_aborts_before_container_witness :
    runTest envC6 = earlyResult ("foundry.toml not found at " ++
      joinP "/proj" "foundry.toml") ∧
    (runTest envC6).st.createCalls = 0 ∧ (runTest envC6).st.live = 0 :=
  missing_toml_aborts_before_container envC6 rfl rfl rfl

/-- A lifecycle environment where the engine creates the container but
the start call fails. -/
def createStartFails : CreateEnv :=
  { ping := .ok (), provision := provisionOk, createContainer := .ok ()
    startContainer := .error { message := "boom", statusCode := none }
    inspectRunning := .ok true }

/-- A fully valid run whose container start fails after a successful
engine create call. -/
def envC1 : RunEnv :=
  { envC6 with foundryTomlExists := true, create := createStartFails }

/-- Claim C1: evaluation at the failing input.  When the engine create
call succeeds but the start call fails, the catch path does invoke
`removeContainer` and the local handle is null — yet the created
container stays alive: the live count after the run is 1, not 0, because
`containerId` is assigned only after the running check, so the cleanup
finds no handle to remove.  The run returns the wrapped error result. -/
theorem startFailure_leaks_container :
    (runTest envC1).st.live = 1 ∧
    (runTest envC1).st.removeCalls = 1 ∧
    (runTest envC1).st.containerId = none ∧
    (runTest envC1).result =
      some (.failErr "Failed to create and start container: boom") :=
  ⟨rfl, rfl, rfl, rfl⟩

/-- Claim C5 witness: a concrete removal of an already-gone container
returns normally, clears the handle, and logs no failure warning. -/
theorem removeContainer_never_throws_and_clears_witness :
    (removeContainer (some "abc") envC5).raised = none ∧
    (removeContainer (some "abc") envC5).containerId = none ∧
    (removeContainer (some "abc") envC5).warned = false :=
  ⟨(removeContainer_never_throws_and_clears (some "abc") envC5).1,
   (removeContainer_never_throws_and_clears (some "abc") envC5).2.1,
   ((removeContainer_never_throws_and_clears (some "abc") envC5).2.2 "abc"
     { message := "No such container: abc", statusCode := some 404 }
     rfl rfl (by decide)).1⟩

end FoundrySandbox
